import Mathlib

/-!
Verification of the Mumble speech-recognition subsystem
(`src/shared/adaptive_speech.py`, `base_audio_recognizer.py`,
`pyaudio_recognizer.py`, `sounddevice_recognizer.py`, `cloud_speech.py`).

The Python code is shallowly embedded: each method that a claim is about is
translated into an executable Lean function over an explicit state type.
Exceptions are modelled with `Except`; a Python attribute that may never have
been assigned is modelled with `Option` (with `none` meaning the attribute is
missing, so that reading it raises `AttributeError`).  Threads are not run;
what matters for the claims is which callback invocations a loop body performs
and with which configuration a thread object is created, so loop bodies are
modelled as functions from their inputs to the list of callback invocations
(plus the resulting state), and thread creation is modelled by a `ThreadSpec`
value recording the `daemon` flag passed to `threading.Thread`.
-/

namespace Mumble

/-- Exceptions that the embedded Python code can raise. -/
inductive PyError where
  | attributeError
  | runtimeError (msg : String)
  | osError
deriving DecidableEq, Repr

/-- Possible outcomes of one call to
`AdaptiveSpeechRecognizer._create_recognizer(recognizer_type)`
(`adaptive_speech.py`, lines 65-132): the call returns an instance,
returns `None` (all the internal `except` arms do this), or itself raises. -/
inductive CreateOutcome where
  | created
  | createdNone
  | raised
deriving DecidableEq, Repr

/-- `AdaptiveSpeechRecognizer.recognizer_preferences`
(`adaptive_speech.py`, lines 32-38). -/
def recognizerPreferences : List String :=
  ["pyaudio", "sounddevice", "windows_speech", "web_api", "keyboard"]

/-- Python `set.add` on a set represented as a duplicate-free list. -/
def setAdd (s : List String) (x : String) : List String :=
  if x ∈ s then s else s ++ [x]

/-- The loop of `AdaptiveSpeechRecognizer._initialize_best_recognizer`
(`adaptive_speech.py`, lines 45-60), over an arbitrary remaining preference
list.  `create` gives the outcome of `_create_recognizer` for each name.
Returns the final `failed_recognizers` set together with the adopted
recognizer name (`none` when the list is exhausted without adopting). -/
def init_best_from (create : String → CreateOutcome) :
    List String → List String → List String × Option String
  | [], failed => (failed, none)
  | name :: rest, failed =>
    if name ∈ failed then init_best_from create rest failed
    else
      match create name with
      | .created => (failed, some name)
      | .createdNone => init_best_from create rest failed
      | .raised => init_best_from create rest (setAdd failed name)

/-- `AdaptiveSpeechRecognizer._initialize_best_recognizer`
(`adaptive_speech.py`, lines 42-63): run the selection loop over the full
preference order; raise `RuntimeError` when nothing was adopted. -/
def init_best_recognizer (create : String → CreateOutcome)
    (failed : List String) : Except PyError (List String × String) :=
  match init_best_from create recognizerPreferences failed with
  | (failed1, some name) => .ok (failed1, name)
  | (_, none) => .error (.runtimeError "No speech recognition backend available")

/-- The state of an `AdaptiveSpeechRecognizer` that the stop/fallback path
touches: `current_recognizer`/`recognizer_name` (the instance is identified by
its name) and `failed_recognizers`. -/
structure AdaptiveState where
  current : Option String
  failed : List String
deriving DecidableEq, Repr

/-- `AdaptiveSpeechRecognizer._handle_recognizer_error` as called with
`attempt_restart_listening=False` (`adaptive_speech.py`, lines 250-278):
mark the current name failed, clear it, and call
`_initialize_best_recognizer()`, whose `RuntimeError` propagates when every
remaining construction fails. -/
def handle_recognizer_error (create : String → CreateOutcome)
    (st : AdaptiveState) : Except PyError AdaptiveState :=
  let failed1 := match st.current with
    | some n => setAdd st.failed n
    | none => st.failed
  match init_best_recognizer create failed1 with
  | .ok (failed2, name) => .ok ⟨some name, failed2⟩
  | .error e => .error e

/-- `AdaptiveSpeechRecognizer.stop_listening` (`adaptive_speech.py`,
lines 280-293).  `stopRaises n` tells whether the delegated
`stop_listening` of the backend named `n` raises. -/
def adaptive_stop_listening (create : String → CreateOutcome)
    (stopRaises : String → Bool) (st : AdaptiveState) :
    Except PyError AdaptiveState :=
  match st.current with
  | none => .ok st
  | some n =>
    if stopRaises n then handle_recognizer_error create st
    else .ok st

/-- What one call to `self.recognizer.recognize_google(audio_data)` does for a
given audio buffer (`base_audio_recognizer.py`, line 131): return a transcript
string (possibly empty), raise `sr.UnknownValueError` (unintelligible audio),
raise `sr.RequestError` (service request failed), or raise some other
exception. -/
inductive RecognizeOutcome where
  | transcript (text : String)
  | unknownValueError
  | requestError
  | otherException
deriving DecidableEq, Repr

/-- Exceptions live inside the recognition thread body: the three
`speech_recognition` outcomes plus an exception raised by the callback. -/
inductive SrExn where
  | unknownValue
  | request
  | callbackExn
  | other
deriving DecidableEq, Repr

/-- `recognize_google` as an `Except` computation over its outcome. -/
def recognize_google : RecognizeOutcome → Except SrExn String
  | .transcript t => .ok t
  | .unknownValueError => .error .unknownValue
  | .requestError => .error .request
  | .otherException => .error .other

/-- The `try` block of `recognition_thread_target`
(`base_audio_recognizer.py`, lines 125-134): call `recognize_google`; if the
transcript is non-empty, call the callback once with it.  Returns the list of
callback invocations made, and the result of the block (an error is an
exception reaching the `except` arms). -/
def recognitionTryBlock (outcome : RecognizeOutcome)
    (cb : String → Except SrExn Unit) : List String × Except SrExn Unit :=
  match recognize_google outcome with
  | .error e => ([], .error e)
  | .ok text =>
    if text = "" then ([], .ok ())
    else
      match cb text with
      | .ok _ => ([text], .ok ())
      | .error e => ([text], .error e)

/-- `recognition_thread_target` with its `except` arms
(`base_audio_recognizer.py`, lines 124-146): `sr.UnknownValueError` is logged
at info level, `sr.RequestError` at error level, and any other `Exception` is
logged — none escapes.  Returns the callback invocations and whether an
exception escaped the thread target. -/
def recognition_thread_target (outcome : RecognizeOutcome)
    (cb : String → Except SrExn Unit) : List String × Bool :=
  match recognitionTryBlock outcome cb with
  | (invs, .ok _) => (invs, false)
  | (invs, .error .unknownValue) => (invs, false)
  | (invs, .error .request) => (invs, false)
  | (invs, .error _) => (invs, false)

/-- The configuration a `threading.Thread` object is created with; the claims
only need the `daemon` flag. -/
structure ThreadSpec where
  daemon : Bool
deriving DecidableEq, Repr

/-- `BaseAudioRecognizer._recognize_audio_with_google`
(`base_audio_recognizer.py`, lines 104-150): create the recognition thread
with `daemon = True` and start it; the method itself returns without raising.
Returns the created thread's configuration and the behaviour of its target. -/
def recognize_audio_with_google (outcome : RecognizeOutcome)
    (cb : String → Except SrExn Unit) : ThreadSpec × (List String × Bool) :=
  (⟨true⟩, recognition_thread_target outcome cb)

/-- The `wrapped_callback` closure built by
`AdaptiveSpeechRecognizer.start_listening` (`adaptive_speech.py`,
lines 237-241): call the user callback; any `Exception` it raises is caught
and logged. -/
def wrapped_callback (cb : String → Except SrExn Unit) :
    String → Except SrExn Unit :=
  fun text =>
    match cb text with
    | .ok _ => .ok ()
    | .error _ => .ok ()

/-- A capture loop delivering utterances through the adaptive wrapper: each
entry pairs an utterance with the user callback registered at the moment it is
delivered.  An exception escaping a delivery kills the loop (no further
utterance is processed); the returned list holds the utterances actually
delivered. -/
def captureLoopDeliver :
    List (String × (String → Except SrExn Unit)) → List String × Option SrExn
  | [] => ([], none)
  | (t, cb) :: rest =>
    match wrapped_callback cb t with
    | .ok _ =>
      let r := captureLoopDeliver rest
      (t :: r.1, r.2)
    | .error e => ([t], some e)

/-- Total signal energy of a recorded block, `np.sum(block ** 2)`
(`sounddevice_recognizer.py`, line 156).  Samples are `int16`; for blocks at
or below the silence threshold every partial sum is far below `2^24`, where
`float32` arithmetic is exact, so integer arithmetic is faithful there. -/
def signalEnergy (block : List Int) : Int :=
  (block.map (fun s => s * s)).foldl (fun a b => a + b) 0

/-- `silence_threshold` (`sounddevice_recognizer.py`, line 158). -/
def silence_threshold : Int := 10000

/-- What one non-erroring iteration of `SoundDeviceRecognizer._listen_loop`
does with a recorded block (`sounddevice_recognizer.py`, lines 154-183). -/
structure BlockStep where
  tempFileWritten : Bool
  recognitionCalled : Bool
deriving DecidableEq, Repr

/-- The silence gate and hand-off of `SoundDeviceRecognizer._listen_loop`
(`sounddevice_recognizer.py`, lines 154-183): if the block's energy is below
the threshold, `continue` — no temp file, no recognition; otherwise write the
temp WAV and call `_recognize_audio_with_google` when a callback is set. -/
def process_block (callbackSet : Bool) (block : List Int) : BlockStep :=
  if signalEnergy block < silence_threshold then ⟨false, false⟩
  else ⟨true, callbackSet⟩

/-- Callback invocations one block can lead to: only via the recognition step,
and only when the block survived the silence gate. -/
def block_callback_invocations (callbackSet : Bool) (block : List Int)
    (outcome : RecognizeOutcome) (cb : String → Except SrExn Unit) :
    List String :=
  if (process_block callbackSet block).recognitionCalled then
    (recognize_audio_with_google outcome cb).2.1
  else []

/-- Python `str.strip()` on a line represented as a list of characters:
drop whitespace from both ends. -/
def pyStrip (l : List Char) : List Char :=
  ((l.dropWhile Char.isWhitespace).reverse.dropWhile Char.isWhitespace).reverse

/-- What one iteration of `KeyboardInputRecognizer._keyboard_input_loop`
(`cloud_speech.py`, lines 553-585) does with a line read while listening and
not stop-requested: `if text.strip() and self._callback:
self._callback(text.strip())`; an empty or all-whitespace line produces no
invocation.  Returns the callback invocations for that line. -/
def keyboard_line_step (callbackSet : Bool) (line : List Char) :
    List (List Char) :=
  if pyStrip line ≠ [] then (if callbackSet then [pyStrip line] else [])
  else []

/-- One iteration of `SoundDeviceRecognizer._listen_loop` as scripted from
outside: a recording either yields a block of samples, raises
`sd.PortAudioError`, or raises some other exception
(`sounddevice_recognizer.py`, lines 137-203). -/
inductive CaptureEvent where
  | block (samples : List Int)
  | portAudioError
  | otherError
deriving Repr

/-- Observable outcome of running `SoundDeviceRecognizer._listen_loop` over a
script of capture events: iterations executed, recognition calls made, and the
`_is_listening_state` / `_stop_requested` flags at loop exit. -/
structure LoopOutcome where
  iterations : Nat
  recognitions : Nat
  isListening : Bool
  stopRequested : Bool
deriving DecidableEq, Repr

/-- `SoundDeviceRecognizer._listen_loop` (`sounddevice_recognizer.py`,
lines 116-221) over a script of capture events.  A `PortAudioError` logs,
sets `_is_listening_state = False`, sets `_stop_requested` and breaks
(lines 185-194); any other exception logs and continues (lines 195-203);
a block goes through the silence gate and, when loud enough and a callback is
set, leads to one recognition call; the `finally` clause (lines 219-221)
leaves `_is_listening_state = False` on every exit. -/
def sd_listen_loop (callbackSet : Bool) : List CaptureEvent → LoopOutcome
  | [] => ⟨0, 0, false, false⟩
  | CaptureEvent.portAudioError :: _ => ⟨1, 0, false, true⟩
  | CaptureEvent.otherError :: rest =>
    let r := sd_listen_loop callbackSet rest
    ⟨r.iterations + 1, r.recognitions, r.isListening, r.stopRequested⟩
  | CaptureEvent.block samples :: rest =>
    let r := sd_listen_loop callbackSet rest
    ⟨r.iterations + 1,
     r.recognitions +
       (if silence_threshold ≤ signalEnergy samples then
         (if callbackSet then 1 else 0) else 0),
     r.isListening, r.stopRequested⟩

/-- The fields of `PyAudioRecognizer` and `SoundDeviceRecognizer` that
`start_listening` touches: `_is_listening_state`, `_stop_requested`,
`_listen_thread` and `_callback` (threads and callbacks are identified by
numbers). -/
structure AudioBackendState where
  isListeningState : Bool
  stopRequestedSet : Bool
  listenThread : Option Nat
  callback : Option Nat
deriving DecidableEq, Repr

/-- `PyAudioRecognizer.start_listening` (`pyaudio_recognizer.py`,
lines 36-56): if already listening, log a warning and return; otherwise set
the state, register the callback, and spawn the capture thread with
`daemon = True`.  Returns the new state and the threads created. -/
def pyaudio_start_listening (cb tid : Nat) (st : AudioBackendState) :
    Except PyError (AudioBackendState × List ThreadSpec) :=
  if st.isListeningState then .ok (st, [])
  else .ok (⟨true, false, some tid, some cb⟩, [⟨true⟩])

/-- `SoundDeviceRecognizer.start_listening` (`sounddevice_recognizer.py`,
lines 90-114): return if SoundDevice is unavailable; if already listening, log
a warning and return; otherwise set the state, register the callback, and
spawn the capture thread with `daemon = True`. -/
def sounddevice_start_listening (available : Bool) (cb tid : Nat)
    (st : AudioBackendState) :
    Except PyError (AudioBackendState × List ThreadSpec) :=
  if !available then .ok (st, [])
  else if st.isListeningState then .ok (st, [])
  else .ok (⟨true, false, some tid, some cb⟩, [⟨true⟩])

/-- The fields of `WebAPIRecognizer` (`cloud_speech.py`, lines 97-104):
`html_file_path`, `_monitor_thread`, `_callback`, the inherited
`_is_listening_state` — and the `_stop_requested` attribute, which no method
of the class ever assigns, modelled as `Option` with `none` meaning the
attribute is missing on the object. -/
structure WebAPIState where
  htmlFilePath : Option String
  monitorThread : Option Nat
  callback : Option Nat
  isListeningState : Bool
  stopRequestedAttr : Option Bool
deriving DecidableEq, Repr

/-- A `WebAPIRecognizer` as `__init__` leaves it (`cloud_speech.py`,
lines 97-104): not listening, no thread, no callback, and no
`_stop_requested` attribute; `html` is the path `_setup_web_interface`
produced (`none` when HTML creation failed). -/
def webapi_fresh (html : Option String) : WebAPIState :=
  ⟨html, none, none, false, none⟩

/-- `WebAPIRecognizer.start_listening` (`cloud_speech.py`, lines 210-236):
return when no HTML file is available; return when already listening;
otherwise mark listening, register the callback, open the browser (on failure
flip listening back and return), and spawn the monitor thread with
`daemon = True`. -/
def webapi_start_listening (browserOpens : Bool) (cb tid : Nat)
    (st : WebAPIState) : Except PyError (WebAPIState × List ThreadSpec) :=
  match st.htmlFilePath with
  | none => .ok (st, [])
  | some _ =>
    if st.isListeningState then .ok (st, [])
    else
      let st1 := { st with isListeningState := true, callback := some cb }
      if !browserOpens then .ok ({ st1 with isListeningState := false }, [])
      else .ok ({ st1 with monitorThread := some tid }, [⟨true⟩])

/-- `WebAPIRecognizer.stop_listening` (`cloud_speech.py`, lines 273-292),
with Python attribute semantics made explicit: evaluating
`self._stop_requested` raises `AttributeError` when the attribute was never
assigned.  Line 279 reads it whenever `_is_listening_state` is false (the
`and` short-circuits otherwise), and line 284 (`self._stop_requested.set()`)
reads it unconditionally; afterwards `super().stop_listening()` sets
`_is_listening_state = False` and the monitor thread is joined and cleared. -/
def webapi_stop_listening (st : WebAPIState) :
    Except PyError WebAPIState :=
  let afterCheck : Except PyError Unit :=
    if !st.isListeningState then
      match st.stopRequestedAttr with
      | none => .error .attributeError
      | some _ => .ok ()
    else .ok ()
  match afterCheck with
  | .error e => .error e
  | .ok _ =>
    match st.stopRequestedAttr with
    | none => .error .attributeError
    | some _ =>
      .ok { st with stopRequestedAttr := some true,
                    isListeningState := false,
                    monitorThread := none }

/-- The fields of `WindowsSpeechRecognizer` that `start_listening` touches
(`cloud_speech.py`, lines 324-334 and 336-382), plus whether the process runs
on Windows (`sys.platform == "win32"`). -/
structure WindowsRecognizerState where
  platformWin32 : Bool
  processActive : Bool
  listenThread : Option Nat
  stopRequestedSet : Bool
  isListeningState : Bool
deriving DecidableEq, Repr

/-- `WindowsSpeechRecognizer.start_listening` (`cloud_speech.py`,
lines 336-382): raise `OSError` off Windows; if already listening, log a
warning and return; otherwise mark listening, clear the stop event, and spawn
the PowerShell monitor thread with `daemon = True`. -/
def windows_start_listening (tid : Nat) (st : WindowsRecognizerState) :
    Except PyError (WindowsRecognizerState × List ThreadSpec) :=
  if !st.platformWin32 then .error .osError
  else if st.isListeningState then .ok (st, [])
  else .ok ({ st with isListeningState := true, stopRequestedSet := false,
                      listenThread := some tid }, [⟨true⟩])

/-- The fields of `KeyboardInputRecognizer` that `start_listening` touches
(`cloud_speech.py`, lines 523-548). -/
structure KeyboardRecognizerState where
  inputThread : Option Nat
  callback : Option Nat
  stopRequestedSet : Bool
  isListeningState : Bool
deriving DecidableEq, Repr

/-- `KeyboardInputRecognizer.start_listening` (`cloud_speech.py`,
lines 530-548): if already listening, log a warning and return; otherwise
mark listening, register the callback, clear the stop event, and spawn the
input thread with `daemon = True`. -/
def keyboard_start_listening (cb tid : Nat) (st : KeyboardRecognizerState) :
    Except PyError (KeyboardRecognizerState × List ThreadSpec) :=
  if st.isListeningState then .ok (st, [])
  else .ok (⟨some tid, some cb, false, true⟩, [⟨true⟩])

/-- The threads a `start_listening` call created (none when it raised). -/
def spawnedThreads {σ : Type} (r : Except PyError (σ × List ThreadSpec)) :
    List ThreadSpec :=
  match r with
  | .ok (_, ts) => ts
  | .error _ => []

theorem mem_setAdd {s : List String} {x y : String} :
    y ∈ setAdd s x ↔ y ∈ s ∨ y = x := by
  unfold setAdd
  by_cases h : x ∈ s
  · rw [if_pos h]
    constructor
    · exact Or.inl
    · rintro (hy | rfl)
      · exact hy
      · exact h
  · rw [if_neg h]
    simp [List.mem_append]

theorem init_best_from_none_iff (create : String → CreateOutcome)
    (prefs : List String) : ∀ failed : List String,
    (init_best_from create prefs failed).2 = none ↔
      ∀ name ∈ prefs, name ∈ failed ∨ create name ≠ CreateOutcome.created := by
  induction prefs with
  | nil => intro failed; simp [init_best_from]
  | cons n rest ih =>
    intro failed
    rw [List.forall_mem_cons]
    by_cases hmem : n ∈ failed
    · rw [init_best_from, if_pos hmem, ih]
      simp [hmem]
    · rw [init_best_from, if_neg hmem]
      cases hc : create n with
      | created => simp [hmem, hc]
      | createdNone =>
        rw [ih]
        simp [hmem, hc]
      | raised =>
        rw [ih]
        constructor
        · intro h
          refine ⟨Or.inr (by simp [hc]), fun m hm => ?_⟩
          rcases h m hm with hin | hne
          · rcases mem_setAdd.1 hin with h1 | rfl
            · exact Or.inl h1
            · exact Or.inr (by simp [hc])
          · exact Or.inr hne
        · rintro ⟨-, h⟩ m hm
          rcases h m hm with h1 | hne
          · exact Or.inl (mem_setAdd.2 (Or.inl h1))
          · exact Or.inr hne

/-- C1: `_initialize_best_recognizer` iterates the preference order
`['pyaudio','sounddevice','windows_speech','web_api','keyboard']`, skips every
name already in `failed_recognizers`, adopts the first name whose construction
succeeds and stops, records in `failed_recognizers` every name whose
construction attempt raises and continues, raises the fatal
"no recognizer available" error exactly when the whole list yields nothing,
and in particular adopts `preferenceOrder[1]` when `preferenceOrder[0]` is
already marked failed and `preferenceOrder[1]` is constructible. -/
theorem adaptive_selection_spec :
    (∀ (create : String → CreateOutcome) rest failed name, name ∈ failed →
      init_best_from create (name :: rest) failed = init_best_from create rest failed)
    ∧ (∀ (create : String → CreateOutcome) rest failed name, name ∉ failed →
      create name = CreateOutcome.created →
      init_best_from create (name :: rest) failed = (failed, some name))
    ∧ (∀ (create : String → CreateOutcome) rest failed name, name ∉ failed →
      create name = CreateOutcome.raised →
      init_best_from create (name :: rest) failed
        = init_best_from create rest (setAdd failed name))
    ∧ (∀ (create : String → CreateOutcome) failed,
      init_best_recognizer create failed
          = .error (.runtimeError "No speech recognition backend available") ↔
        ∀ name ∈ recognizerPreferences,
          name ∈ failed ∨ create name ≠ CreateOutcome.created)
    ∧ (∀ (create : String → CreateOutcome) failed, "pyaudio" ∈ failed →
      "sounddevice" ∉ failed → create "sounddevice" = CreateOutcome.created →
      init_best_recognizer create failed = .ok (failed, "sounddevice")) := by
  refine ⟨?_, ?_, ?_, ?_, ?_⟩
  · intro create rest failed name h
    rw [init_best_from, if_pos h]
  · intro create rest failed name h hc
    rw [init_best_from, if_neg h, hc]
  · intro create rest failed name h hc
    rw [init_best_from, if_neg h, hc]
  · intro create failed
    rw [← init_best_from_none_iff create recognizerPreferences failed]
    unfold init_best_recognizer
    cases h : init_best_from create recognizerPreferences failed with
    | mk failed1 adopted =>
      cases adopted <;> simp
  · intro create failed h1 h2 h3
    unfold init_best_recognizer recognizerPreferences
    rw [init_best_from, if_pos h1, init_best_from, if_neg h2, h3]

/-- Witness for C1 at a concrete construction environment: with `pyaudio`
already marked failed and `sounddevice` constructible, selection adopts
`sounddevice` and leaves the failed set unchanged. -/
theorem adaptive_selection_spec_witness :
    init_best_recognizer
        (fun n => if n = "sounddevice" then CreateOutcome.created else CreateOutcome.raised)
        ["pyaudio"]
      = .ok (["pyaudio"], "sounddevice") :=
  adaptive_selection_spec.2.2.2.2
    (fun n => if n = "sounddevice" then CreateOutcome.created else CreateOutcome.raised)
    ["pyaudio"] (by decide) (by decide) (by decide)

/-- C3 (code bug): when the delegated backend `stop_listening` raises and no
other backend is constructible (here: every `_create_recognizer` call returns
`None`), `AdaptiveSpeechRecognizer.stop_listening` does not swallow the
condition arising during fallback handling — the `RuntimeError` raised by
`_initialize_best_recognizer` inside `_handle_recognizer_error` propagates to
the caller of `stop_listening`. -/
theorem adaptive_stop_raises_when_no_fallback :
    adaptive_stop_listening (fun _ => CreateOutcome.createdNone) (fun _ => true)
        ⟨some "keyboard", []⟩
      = .error (.runtimeError "No speech recognition backend available") := by
  rfl

/-- C4: for every audio buffer submitted to `_recognize_audio_with_google`,
a successful non-empty transcript invokes the callback exactly once with that
transcript; an unintelligible-audio outcome, a service-request failure and an
empty transcript each produce no callback invocation; and in no outcome does
an exception escape to the caller of the recognition step. -/
theorem recognize_audio_spec :
    (∀ (t : String) cb, t ≠ "" →
      (recognize_audio_with_google (RecognizeOutcome.transcript t) cb).2.1 = [t])
    ∧ (∀ cb, (recognize_audio_with_google RecognizeOutcome.unknownValueError cb).2.1 = [])
    ∧ (∀ cb, (recognize_audio_with_google RecognizeOutcome.requestError cb).2.1 = [])
    ∧ (∀ cb, (recognize_audio_with_google (RecognizeOutcome.transcript "") cb).2.1 = [])
    ∧ (∀ outcome cb, (recognize_audio_with_google outcome cb).2.2 = false) := by
  refine ⟨?_, ?_, ?_, ?_, ?_⟩
  · intro t cb ht
    simp only [recognize_audio_with_google, recognition_thread_target,
      recognitionTryBlock, recognize_google, if_neg ht]
    cases cb t with
    | ok a => rfl
    | error e => cases e <;> rfl
  · intro cb; rfl
  · intro cb; rfl
  · intro cb; rfl
  · intro outcome cb
    simp only [recognize_audio_with_google, recognition_thread_target]
    rcases recognitionTryBlock outcome cb with ⟨invs, res⟩
    cases res with
    | ok a => rfl
    | error e => cases e <;> rfl

/-- Witness for C4 at a concrete buffer: a non-empty transcript is delivered
exactly once even to a callback that raises. -/
theorem recognize_audio_spec_witness :
    (recognize_audio_with_google (RecognizeOutcome.transcript "hello")
        (fun _ => .error SrExn.callbackExn)).2.1 = ["hello"] :=
  recognize_audio_spec.1 "hello" (fun _ => .error SrExn.callbackExn) (by decide)

/-- C5: the wrapper that `AdaptiveSpeechRecognizer.start_listening` puts
around the user callback returns normally for every text and every raising
callback, so the capture loop delivers every utterance — each to the callback
registered at that moment — and never dies on a raising callback. -/
theorem wrapped_callback_isolates :
    (∀ (cb : String → Except SrExn Unit) (text : String),
      wrapped_callback cb text = .ok ())
    ∧ (∀ entries, captureLoopDeliver entries = (entries.map Prod.fst, none)) := by
  have hok : ∀ (cb : String → Except SrExn Unit) (text : String),
      wrapped_callback cb text = .ok () := by
    intro cb text
    unfold wrapped_callback
    cases cb text <;> rfl
  refine ⟨hok, ?_⟩
  intro entries
  induction entries with
  | nil => rfl
  | cons e rest ih =>
    rcases e with ⟨t, cb⟩
    simp [captureLoopDeliver, hok, ih]

/-- C6: every recorded block whose total signal energy is below the silence
threshold 10000 is discarded by `SoundDeviceRecognizer._listen_loop` — no
temporary file is written, no recognition call is made, and no callback
invocation can result from that block. -/
theorem silence_gate_discards :
    ∀ (block : List Int) (callbackSet : Bool),
      signalEnergy block < silence_threshold →
      process_block callbackSet block = ⟨false, false⟩
      ∧ ∀ outcome cb, block_callback_invocations callbackSet block outcome cb = [] := by
  intro block callbackSet h
  have hstep : process_block callbackSet block = ⟨false, false⟩ := by
    unfold process_block
    rw [if_pos h]
  refine ⟨hstep, ?_⟩
  intro outcome cb
  unfold block_callback_invocations
  rw [hstep]
  rfl

/-- Witness for C6 at a concrete block: an all-zero block leads to no temp
file, no recognition call, and no callback invocation. -/
theorem silence_gate_discards_witness :
    process_block true [0, 0, 0, 0] = ⟨false, false⟩
    ∧ block_callback_invocations true [0, 0, 0, 0]
        (RecognizeOutcome.transcript "noise") (fun _ => .ok ()) = [] :=
  ⟨(silence_gate_discards [0, 0, 0, 0] true (by decide)).1,
   (silence_gate_discards [0, 0, 0, 0] true (by decide)).2
     (RecognizeOutcome.transcript "noise") (fun _ => .ok ())⟩

/-- Counterexample to C7: a line with leading and trailing whitespace is not
forwarded verbatim — the callback receives the stripped text, not the typed
line. -/
theorem keyboard_verbatim_counterexample :
    keyboard_line_step true [' ', 'h', 'i', ' '] = [['h', 'i']]
    ∧ keyboard_line_step true [' ', 'h', 'i', ' '] ≠ [[' ', 'h', 'i', ' ']] := by
  constructor
  · rfl
  · decide

/-- C7 as amended: every line read while listening whose whitespace-stripped
content is non-empty is forwarded stripped of leading and trailing whitespace
(the callback is invoked exactly once with `text.strip()`), and every line
that is empty or all whitespace produces no callback invocation. -/
theorem keyboard_line_spec :
    (∀ line : List Char, pyStrip line ≠ [] →
      keyboard_line_step true line = [pyStrip line])
    ∧ (∀ (line : List Char) (callbackSet : Bool), pyStrip line = [] →
      keyboard_line_step callbackSet line = []) := by
  constructor
  · intro line h
    unfold keyboard_line_step
    rw [if_pos h]
    rfl
  · intro line callbackSet h
    simp [keyboard_line_step, h]

/-- Witness for C7 as amended at concrete lines: `"hi"` is delivered as
`"hi"`, and an all-whitespace line is ignored. -/
theorem keyboard_line_spec_witness :
    keyboard_line_step true ['h', 'i'] = [['h', 'i']]
    ∧ keyboard_line_step true [' ', ' '] = [] :=
  ⟨keyboard_line_spec.1 ['h', 'i'] (by decide),
   keyboard_line_spec.2 [' ', ' '] true (by decide)⟩

/-- C8: when a `PortAudioError` occurs inside the SoundDevice capture loop,
the loop terminates — the events after the error contribute nothing, no
further recording iteration is attempted — and the iteration count stops at
the failing one, with `_is_listening_state` `False` and `_stop_requested`
set. -/
theorem portaudio_error_stops_loop :
    (∀ (callbackSet : Bool) (pre rest : List CaptureEvent),
      sd_listen_loop callbackSet (pre ++ CaptureEvent.portAudioError :: rest)
        = sd_listen_loop callbackSet (pre ++ [CaptureEvent.portAudioError]))
    ∧ (∀ (callbackSet : Bool) (rest : List CaptureEvent),
      sd_listen_loop callbackSet (CaptureEvent.portAudioError :: rest)
        = ⟨1, 0, false, true⟩) := by
  have key : ∀ (callbackSet : Bool) (pre rest : List CaptureEvent),
      sd_listen_loop callbackSet (pre ++ CaptureEvent.portAudioError :: rest)
        = sd_listen_loop callbackSet (pre ++ [CaptureEvent.portAudioError]) := by
    intro callbackSet pre rest
    induction pre with
    | nil => rfl
    | cons e pre ih =>
      cases e with
      | block samples =>
        simp only [List.cons_append, sd_listen_loop, List.append_eq, ih]
      | portAudioError => rfl
      | otherError =>
        simp only [List.cons_append, sd_listen_loop, List.append_eq, ih]
  exact ⟨key, fun callbackSet rest => rfl⟩

/-- C2 (code bug): on a freshly constructed `WebAPIRecognizer` on which
`start_listening` was never called, `stop_listening` raises `AttributeError`:
`__init__` never assigns `self._stop_requested` (unlike the sibling backends),
and `stop_listening` reads it at its first line. -/
theorem webapi_stop_fresh_attribute_error :
    webapi_stop_listening (webapi_fresh (some "mumble_speech.html"))
      = .error PyError.attributeError := by
  rfl

/-- C9: for every backend, calling `start_listening` while already listening
returns without raising, spawns no thread, and leaves the whole state —
existing thread, stop event, registered callback — unchanged.  (For the
Windows bridge the listening state is only reachable on Windows, so that
conjunct assumes `platformWin32`.) -/
theorem start_listening_idempotent :
    (∀ cb tid (st : AudioBackendState), st.isListeningState = true →
      pyaudio_start_listening cb tid st = .ok (st, []))
    ∧ (∀ available cb tid (st : AudioBackendState), st.isListeningState = true →
      sounddevice_start_listening available cb tid st = .ok (st, []))
    ∧ (∀ browserOpens cb tid (st : WebAPIState), st.isListeningState = true →
      webapi_start_listening browserOpens cb tid st = .ok (st, []))
    ∧ (∀ tid (st : WindowsRecognizerState), st.isListeningState = true →
      st.platformWin32 = true →
      windows_start_listening tid st = .ok (st, []))
    ∧ (∀ cb tid (st : KeyboardRecognizerState), st.isListeningState = true →
      keyboard_start_listening cb tid st = .ok (st, [])) := by
  refine ⟨?_, ?_, ?_, ?_, ?_⟩
  · intro cb tid st h
    simp [pyaudio_start_listening, h]
  · intro available cb tid st h
    cases available <;> simp [sounddevice_start_listening, h]
  · intro browserOpens cb tid st h
    cases hhtml : st.htmlFilePath <;>
      simp [webapi_start_listening, hhtml, h]
  · intro tid st h hplat
    simp [windows_start_listening, h, hplat]
  · intro cb tid st h
    simp [keyboard_start_listening, h]

/-- Witness for C9 at concrete already-listening states of all five
backends. -/
theorem start_listening_idempotent_witness :
    pyaudio_start_listening 7 2 ⟨true, false, some 1, some 5⟩
      = .ok (⟨true, false, some 1, some 5⟩, [])
    ∧ sounddevice_start_listening true 7 2 ⟨true, false, some 1, some 5⟩
      = .ok (⟨true, false, some 1, some 5⟩, [])
    ∧ webapi_start_listening true 7 2 ⟨some "mumble.html", some 1, some 5, true, none⟩
      = .ok (⟨some "mumble.html", some 1, some 5, true, none⟩, [])
    ∧ windows_start_listening 2 ⟨true, true, some 1, false, true⟩
      = .ok (⟨true, true, some 1, false, true⟩, [])
    ∧ keyboard_start_listening 7 2 ⟨some 1, some 5, false, true⟩
      = .ok (⟨some 1, some 5, false, true⟩, []) :=
  ⟨start_listening_idempotent.1 7 2 ⟨true, false, some 1, some 5⟩ rfl,
   start_listening_idempotent.2.1 true 7 2 ⟨true, false, some 1, some 5⟩ rfl,
   start_listening_idempotent.2.2.1 true 7 2
     ⟨some "mumble.html", some 1, some 5, true, none⟩ rfl,
   start_listening_idempotent.2.2.2.1 2 ⟨true, true, some 1, false, true⟩ rfl rfl,
   start_listening_idempotent.2.2.2.2 7 2 ⟨some 1, some 5, false, true⟩ rfl⟩

/-- C10: every thread any backend creates — the PyAudio and SoundDevice
capture threads, the per-utterance recognition worker, the browser-bridge
monitor thread, the Windows-bridge subprocess-monitor thread, and the
keyboard-input thread — is created with `daemon = True`. -/
theorem all_threads_daemon :
    (∀ outcome cb, (recognize_audio_with_google outcome cb).1.daemon = true)
    ∧ (∀ cb tid st,
      ((spawnedThreads (pyaudio_start_listening cb tid st)).all ThreadSpec.daemon) = true)
    ∧ (∀ available cb tid st,
      ((spawnedThreads (sounddevice_start_listening available cb tid st)).all
        ThreadSpec.daemon) = true)
    ∧ (∀ browserOpens cb tid st,
      ((spawnedThreads (webapi_start_listening browserOpens cb tid st)).all
        ThreadSpec.daemon) = true)
    ∧ (∀ tid st,
      ((spawnedThreads (windows_start_listening tid st)).all ThreadSpec.daemon) = true)
    ∧ (∀ cb tid st,
      ((spawnedThreads (keyboard_start_listening cb tid st)).all ThreadSpec.daemon) = true) := by
  refine ⟨fun outcome cb => rfl, ?_, ?_, ?_, ?_, ?_⟩
  · intro cb tid st
    by_cases h : st.isListeningState <;>
      simp [pyaudio_start_listening, h, spawnedThreads, ThreadSpec.daemon]
  · intro available cb tid st
    cases available <;> by_cases h : st.isListeningState <;>
      simp [sounddevice_start_listening, h, spawnedThreads, ThreadSpec.daemon]
  · intro browserOpens cb tid st
    cases hhtml : st.htmlFilePath <;> cases browserOpens <;>
        by_cases h : st.isListeningState <;>
      simp [webapi_start_listening, hhtml, h, spawnedThreads, ThreadSpec.daemon]
  · intro tid st
    cases hplat : st.platformWin32 <;> by_cases h : st.isListeningState <;>
      simp [windows_start_listening, hplat, h, spawnedThreads, ThreadSpec.daemon]
  · intro cb tid st
    by_cases h : st.isListeningState <;>
      simp [keyboard_start_listening, h, spawnedThreads, ThreadSpec.daemon]

end Mumble
